import Mathlib

/-!
Verification of the messaging core of the microservice_fastapi repository.

The development shallowly embeds the two source components the claims are
about:

* `src/gateway/rpc_client.py` — `OcrRpcClient`, a correlated RPC client over
  a message broker: `call` publishes a request with a fresh correlation id
  and a private reply-to queue, then loops on `process_data_events` until the
  reply slot `self.response` is filled by the consumer callback `on_response`.
* `src/auth/service.py` — `connect_to_rabbitmq` (retry-forever connection
  loop) and `send_otp` (durable fire-and-forget publisher with a queue
  provisioning step wrapped in a catch-all exception handler).

Modelling conventions:

* Message bodies are represented at the level of JSON documents (an inductive
  `Json` value).  `json.dumps` of a Python dict literal is embedded as the
  corresponding `Json.obj` value, and `json.loads` of a received body is the
  body itself; serialization to byte strings is injective and is inverted by
  the parser, so nothing the claims speak about is lost at this level.
* The event loop (`connection.process_data_events`) is embedded as a stream
  `events : Nat → List Delivery` of batches of deliveries arriving on the
  exclusive callback queue, consumed one batch per loop iteration.  The
  unbounded `while` loop is embedded with explicit fuel: a result of `none`
  for every fuel bound means the source loop never exits.
* `uuid.uuid4` is modelled from the spec as an injective supply of opaque
  fresh strings indexed by a draw counter (the spec requires only that ids
  generated for distinct calls be distinct with negligible collisions).
* Exceptions are embedded as explicit outcome values; an exception swallowed
  by an `except` clause never reaches the embedded outcome of the caller.
-/

/-- JSON documents, the payloads travelling through the broker. -/
inductive Json where
  | null : Json
  | bool (b : Bool) : Json
  | num (n : Int) : Json
  | str (s : String) : Json
  | arr (elems : List Json) : Json
  | obj (fields : List (String × Json)) : Json


/-- AMQP basic properties attached to a published or delivered message
(the fields of `pika.BasicProperties` that the source uses). -/
structure BasicProperties where
  reply_to : Option String
  correlation_id : Option String
  delivery_mode : Option Nat


/-- A message published to the default exchange: `routing_key` names the
destination queue. -/
structure Message where
  routing_key : String
  props : BasicProperties
  body : Json


/-- A delivery arriving on a consumed queue (the callback arguments
`properties, body` of `on_message_callback`). -/
structure Delivery where
  props : BasicProperties
  body : Json


/-- Modelled from the spec: `str(uuid.uuid4())` as an injective supply of
opaque correlation-id strings, indexed by how many ids were drawn before.
The spec requires only global uniqueness of the ids a client generates. -/
def uuid4 (draw : Nat) : String :=
  String.mk (List.replicate (draw + 1) 'u')

theorem uuid4_injective : Function.Injective uuid4 := by
  intro a b h
  have hlen := congrArg String.length h
  simpa [uuid4, String.length] using hlen

/-- The mutable state of one `OcrRpcClient` instance
(`src/gateway/rpc_client.py`): the broker-generated exclusive callback
queue, the uuid draw counter, and the per-call fields `corr_id` and
`response` (the pending response slot). -/
structure OcrRpcClient where
  callback_queue : String
  uuid_draws : Nat
  corr_id : String
  response : Option Json


namespace OcrRpcClient

/-- `OcrRpcClient.on_response` (rpc_client.py lines 26-28): fill the pending
response slot only when the delivered correlation id equals the one this
client generated; otherwise leave the state unchanged (the delivery is
auto-acked and discarded). -/
def on_response (self : OcrRpcClient) (properties : BasicProperties)
    (body : Json) : OcrRpcClient :=
  if some self.corr_id = properties.correlation_id then
    { self with response := some body }
  else
    self

/-- One call of `connection.process_data_events`: the consumer callback runs
on each delivery of the arriving batch, in order. -/
def process_batch (self : OcrRpcClient) (batch : List Delivery) : OcrRpcClient :=
  batch.foldl (fun st d => on_response st d.props d.body) self

/-- The wait loop of `call` (rpc_client.py lines 42-43):
`while self.response is None: self.connection.process_data_events()`.
`t` indexes the arriving batch, `fuel` bounds the number of iterations we
observe; `none` means the loop was still running after `fuel` iterations. -/
def wait_for_response (events : Nat → List Delivery) :
    Nat → OcrRpcClient → Nat → Option (OcrRpcClient × Json)
  | _, _, 0 => none
  | t, self, fuel + 1 =>
    match self.response with
    | some body => some (self, body)
    | none => wait_for_response events (t + 1) (process_batch self (events t)) fuel

/-- The request that `call image_data` publishes (rpc_client.py lines 33-41):
routing key `ocr_service`, reply-to the exclusive callback queue, the freshly
drawn correlation id, and body `json.dumps` of the dict with the single key
`image_data`. -/
def request_message (self : OcrRpcClient) (image_data : Json) : Message :=
  { routing_key := "ocr_service"
    props :=
      { reply_to := some self.callback_queue
        correlation_id := some (uuid4 self.uuid_draws)
        delivery_mode := none }
    body := Json.obj [("image_data", image_data)] }

/-- `OcrRpcClient.call` (rpc_client.py lines 30-44): reset the response
slot, draw a fresh correlation id, publish the request, then loop on
`process_data_events` until the slot is filled, returning `json.loads` of
the reply body.  The returned pair is (published request, loop outcome);
the outcome is `none` when the loop has not exited within `fuel`
iterations. -/
def call (self : OcrRpcClient) (events : Nat → List Delivery) (fuel : Nat)
    (image_data : Json) : Message × Option (OcrRpcClient × Json) :=
  let started : OcrRpcClient :=
    { self with
        response := none
        corr_id := uuid4 self.uuid_draws
        uuid_draws := self.uuid_draws + 1 }
  (request_message self image_data, wait_for_response events 0 started fuel)

end OcrRpcClient

/-! ## `src/auth/service.py` — connection retry loop and OTP publisher -/

/-- The fixed retry delay of `connect_to_rabbitmq` (service.py line 137),
in seconds. -/
def retry_delay_seconds : Nat := 5

/-- `connect_to_rabbitmq` (service.py lines 129-137):
`while True: try: return BlockingConnection(...) except AMQPConnectionError:
sleep(5)`.  `attempt n` is the outcome of the `n`-th connection attempt
(`none` embeds `pika.exceptions.AMQPConnectionError`, `some c` a live
connection handle).  The loop is embedded with fuel bounding how many
attempts we observe; on success it returns the connection together with the
number of failed attempts before it, each of which slept
`retry_delay_seconds`.  A result of `none` means the loop was still
retrying after `fuel` attempts. -/
def connect_to_rabbitmq (attempt : Nat → Option Nat) :
    Nat → Nat → Option (Nat × Nat)
  | _, 0 => none
  | n, fuel + 1 =>
    match attempt n with
    | some connection => some (connection, n)
    | none => connect_to_rabbitmq attempt (n + 1) fuel

/-- `pika.spec.PERSISTENT_DELIVERY_MODE`. -/
def PERSISTENT_DELIVERY_MODE : Nat := 2

/-- The broker state visible to `send_otp`: which queues exist (with their
durable flag) and the journal of messages accepted by the broker. -/
structure Broker where
  queues : List (String × Bool)
  published : List Message

/-- Whether a queue of this name exists on the broker. -/
def queue_exists (br : Broker) (q : String) : Bool :=
  br.queues.any (fun e => e.1 == q)

/-- Whether a queue of this name exists on the broker and is durable. -/
def queue_durable (br : Broker) (q : String) : Bool :=
  br.queues.any (fun e => e.1 == q && e.2)

/-- The `method` frame of a successful `queue_declare`: its `queue` field
carries the queue name. -/
structure DeclareOk where
  queue : String

/-- `channel.queue_declare(queue=q, passive=True)`: succeeds returning the
`DeclareOk` frame when the queue exists; raises (embedded as `none`) when it
does not. -/
def queue_declare_passive (br : Broker) (q : String) : Option DeclareOk :=
  if queue_exists br q then some { queue := q } else none

/-- `channel.queue_delete(queue=q)`. -/
def queue_delete (br : Broker) (q : String) : Broker :=
  { br with queues := br.queues.filter (fun e => !(e.1 == q)) }

/-- `channel.queue_declare(queue=q, durable=True)`: creates the queue
durable when absent.  (In `send_otp` this call is only ever reached when
the queue is absent, so the conflicting-existing-queue behaviour of the
broker is irrelevant here and an existing queue is left unchanged.) -/
def queue_declare_durable (br : Broker) (q : String) : Broker :=
  if queue_exists br q then br else { br with queues := (q, true) :: br.queues }

/-- What the caller of `send_otp` observes when it returns: the Python
function either returns `None` normally or lets an exception propagate. -/
inductive CallerOutcome where
  | returned : CallerOutcome
  | raised (err : String) : CallerOutcome

/-- A channel handle; `send_otp` receives one as an argument and
immediately shadows it. -/
abbrev Channel := Nat

/-- The body text of the OTP notification, the f-string of service.py
line 147. -/
def otp_body (otp : String) : String :=
  "Your OTP for account verification is: " ++
    (otp ++
      " \n Please enter this OTP on the verification page to complete your account setup. \n If you did not request this OTP, please ignore this message.\n Thank you ")

/-- `json.dumps(message)` for the dict built in service.py lines 144-148. -/
def otp_message (email otp : String) : Json :=
  Json.obj
    [("email", Json.str email),
     ("subject", Json.str "Account Verification OTP Notification"),
     ("other", Json.str "null"),
     ("body", Json.str (otp_body otp))]

/-- The one message `send_otp` publishes (service.py lines 161-168):
default exchange, routing key `email_notification`, persistent delivery
mode, no reply-to and no correlation id. -/
def otp_notification (email otp : String) : Message :=
  { routing_key := "email_notification"
    props :=
      { reply_to := none
        correlation_id := none
        delivery_mode := some PERSISTENT_DELIVERY_MODE }
    body := otp_message email otp }

/-- The full observable result of one `send_otp` run. -/
structure SendOtpRun where
  broker : Broker
  log : List String
  outcome : CallerOutcome

/-- `send_otp` (service.py lines 140-174).  `publish_ok` injects the fate
of `basic_publish` at publish time (`false` embeds a raised
`pika.exceptions` error).  Control flow follows the source line by line:

* `connect_to_rabbitmq()` blocks and retries until the broker is reachable,
  so within a terminating run the connection is established;
* the `channel` parameter is immediately shadowed by
  `channel = connection.channel()`;
* `queue_declare(passive=True)` on a missing queue raises, the `except`
  clause catches it, so nothing is declared or published in that case;
* `current_durable = queue_declare_ok.method.queue` binds the queue NAME,
  so the string is always truthy and the inner comparison
  `queue_declare_ok.method.queue != current_durable` compares the name with
  itself, never triggering the delete-and-redeclare branch;
* every exception inside the `try` is caught and printed, and the
  function returns normally. -/
def send_otp (email otp : String) ( channel : Channel) (br : Broker)
    (publish_ok : Bool) : SendOtpRun :=
  let channel : Channel := 0
  match queue_declare_passive br "email_notification" with
  | none =>
    { broker := br
      log := ["Failed to publish message: NOT_FOUND - no queue email_notification"]
      outcome := CallerOutcome.returned }
  | some queue_declare_ok =>
    let current_durable := queue_declare_ok.queue
    let br1 :=
      if current_durable ≠ "" then
        if queue_declare_ok.queue ≠ current_durable then
          queue_declare_durable (queue_delete br "email_notification")
            "email_notification"
        else br
      else queue_declare_durable br "email_notification"
    if publish_ok then
      { broker :=
          { br1 with published := br1.published ++ [otp_notification email otp] }
        log := ["Sent OTP email notification"]
        outcome := CallerOutcome.returned }
    else
      { broker := br1
        log := ["Failed to publish message: ConnectionClosed"]
        outcome := CallerOutcome.returned }

/-- The messages a `send_otp` run appended to the broker journal. -/
def sent_messages (run : SendOtpRun) (br : Broker) : List Message :=
  run.broker.published.drop br.published.length

/-! ## Helper lemmas about the RPC dispatch loop -/

namespace OcrRpcClient

theorem on_response_corr_id (st : OcrRpcClient) (p : BasicProperties)
    (b : Json) : (on_response st p b).corr_id = st.corr_id := by
  unfold on_response
  split <;> rfl

theorem process_batch_corr_id (batch : List Delivery) :
    ∀ st : OcrRpcClient, (process_batch st batch).corr_id = st.corr_id := by
  induction batch with
  | nil => intro st; rfl
  | cons d ds ih =>
    intro st
    exact (ih (on_response st d.props d.body)).trans
      (on_response_corr_id st d.props d.body)

/-- If processing a batch leaves a filled response slot, either it was
already filled, or some delivery of the batch carried the matching
correlation id and that body. -/
theorem process_batch_response_source (batch : List Delivery) :
    ∀ (st : OcrRpcClient) (b : Json),
      (process_batch st batch).response = some b →
      st.response = some b ∨
        ∃ d ∈ batch, d.props.correlation_id = some st.corr_id ∧ d.body = b := by
  induction batch with
  | nil =>
    intro st b h
    exact Or.inl h
  | cons d ds ih =>
    intro st b h
    have h' : (process_batch (on_response st d.props d.body) ds).response = some b := h
    rcases ih (on_response st d.props d.body) b h' with hresp | ⟨d', hd', hcid, hbody⟩
    · by_cases hc : some st.corr_id = d.props.correlation_id
      · right
        refine ⟨d, List.mem_cons_self d ds, hc.symm, ?_⟩
        have hset : (on_response st d.props d.body).response = some d.body := by
          simp [on_response, hc]
        rw [hset] at hresp
        exact Option.some.inj hresp
      · left
        have hid : on_response st d.props d.body = st := by
          simp [on_response, hc]
        rwa [hid] at hresp
    · right
      refine ⟨d', List.mem_cons_of_mem d hd', ?_, hbody⟩
      rwa [on_response_corr_id st d.props d.body] at hcid

/-- If the wait loop exits with a reply, either the slot was already filled
when it started, or some delivery of the observed stream carried the
matching correlation id and that body. -/
theorem wait_for_response_source (events : Nat → List Delivery) :
    ∀ (fuel t : Nat) (st st' : OcrRpcClient) (b : Json),
      wait_for_response events t st fuel = some (st', b) →
      st.response = some b ∨
        ∃ k, ∃ d ∈ events (t + k),
          d.props.correlation_id = some st.corr_id ∧ d.body = b := by
  intro fuel
  induction fuel with
  | zero =>
    intro t st st' b h
    simp [wait_for_response] at h
  | succ n ih =>
    intro t st st' b h
    cases hresp : st.response with
    | some body =>
      left
      have hs : some (st, body) = some (st', b) := by
        rw [← h]
        simp [wait_for_response, hresp]
      have hb : body = b := congrArg Prod.snd (Option.some.inj hs)
      rw [hb]

    | none =>
      have h' : wait_for_response events (t + 1)
          (process_batch st (events t)) n = some (st', b) := by
        rw [← h]
        simp [wait_for_response, hresp]
      rcases ih (t + 1) (process_batch st (events t)) st' b h' with
        hr | ⟨k, d, hd, hcid, hbody⟩
      · rcases process_batch_response_source (events t) st b hr with
          h0 | ⟨d, hd, hcid, hbody⟩
        · rw [hresp] at h0
          cases h0
        · right
          exact ⟨0, d, by simpa using hd, hcid, hbody⟩
      · right
        refine ⟨k + 1, d, ?_, ?_, hbody⟩
        · have harith : t + (k + 1) = t + 1 + k := by omega
          rw [harith]
          exact hd
        · rwa [process_batch_corr_id (events t) st] at hcid

/-- A batch holding no delivery with the matching correlation id leaves the
client state unchanged. -/
theorem process_batch_no_match (batch : List Delivery) :
    ∀ st : OcrRpcClient,
      (∀ d ∈ batch, d.props.correlation_id ≠ some st.corr_id) →
      process_batch st batch = st := by
  induction batch with
  | nil =>
    intro st _
    rfl
  | cons d ds ih =>
    intro st hno
    have h1 : on_response st d.props d.body = st := by
      unfold on_response
      exact if_neg (fun hc => hno d (List.mem_cons_self d ds) hc.symm)
    show process_batch (on_response st d.props d.body) ds = st
    rw [h1]
    exact ih st (fun d' hd' => hno d' (List.mem_cons_of_mem d hd'))

/-- If no delivery of the stream ever matches, the wait loop is still
running after any number of iterations. -/
theorem wait_for_response_no_match (events : Nat → List Delivery) :
    ∀ (fuel t : Nat) (st : OcrRpcClient), st.response = none →
      (∀ k, ∀ d ∈ events k, d.props.correlation_id ≠ some st.corr_id) →
      wait_for_response events t st fuel = none := by
  intro fuel
  induction fuel with
  | zero =>
    intro t st _ _
    rfl
  | succ n ih =>
    intro t st hresp hno
    have hbatch := process_batch_no_match (events t) st (fun d hd => hno t d hd)
    simp only [wait_for_response, hresp]
    rw [hbatch]
    exact ih (t + 1) st hresp hno

end OcrRpcClient

/-- Modelled from the spec: the stub `RpcWorker` of the round-trip
property, an external collaborator missing from the source.  Upon a request
it publishes a reply to the reply-to queue that copies the correlation id
verbatim and echoes the request payload (the value under the single
`image_data` key) back as the reply body. -/
def echo_reply (req : Message) : Delivery :=
  { props :=
      { reply_to := none
        correlation_id := req.props.correlation_id
        delivery_mode := none }
    body :=
      match req.body with
      | Json.obj (("image_data", p) :: _) => p
      | b => b }

/-! ## Concrete data used by witnesses -/

/-- A freshly initialized client: exclusive broker-generated callback
queue, no id drawn yet, no call outstanding. -/
def sampleClient : OcrRpcClient :=
  { callback_queue := "amq.gen-cb", uuid_draws := 0, corr_id := "", response := none }

/-- A foreign reply: its correlation id belongs to no outstanding call. -/
def foreignReply : Delivery :=
  { props :=
      { reply_to := none, correlation_id := some "foreign-id", delivery_mode := none }
    body := Json.str "foreign" }

/-- The reply matching the first correlation id `sampleClient` draws. -/
def matchingReply : Delivery :=
  { props :=
      { reply_to := none, correlation_id := some (uuid4 0), delivery_mode := none }
    body := Json.str "ocr text" }

/-- One batch delivering a foreign reply followed by the matching one,
then silence. -/
def sampleEvents : Nat → List Delivery :=
  fun t => if t = 0 then [foreignReply, matchingReply] else []

/-- The client state after the matching reply of `sampleEvents` resolved
the call. -/
def sampleFinal : OcrRpcClient :=
  { callback_queue := "amq.gen-cb", uuid_draws := 1, corr_id := uuid4 0
    response := some (Json.str "ocr text") }

/-! ## Claim theorems for the RPC client -/

/-- C1: for every delivery stream observed while one call is outstanding,
`OcrRpcClient.call` returns only a reply whose correlation id equals the id
it generated for its own request, and a delivered message whose correlation
id differs leaves the pending response slot unchanged — it is discarded
without error. -/
theorem call_returns_only_matching_correlation
    (self : OcrRpcClient) (events : Nat → List Delivery) (fuel : Nat)
    (image_data : Json) (final : OcrRpcClient) (reply : Json)
    (h : (OcrRpcClient.call self events fuel image_data).2 = some (final, reply)) :
    (∃ k, ∃ d ∈ events k,
        d.props.correlation_id = some (uuid4 self.uuid_draws) ∧ d.body = reply) ∧
    ∀ (st : OcrRpcClient) (p : BasicProperties) (b : Json),
      p.correlation_id ≠ some st.corr_id → OcrRpcClient.on_response st p b = st := by
  constructor
  · have h' : OcrRpcClient.wait_for_response events 0
        { self with
            response := none
            corr_id := uuid4 self.uuid_draws
            uuid_draws := self.uuid_draws + 1 } fuel = some (final, reply) := h
    rcases OcrRpcClient.wait_for_response_source events fuel 0 _ final reply h' with
      h0 | ⟨k, d, hd, hcid, hbody⟩
    · exact Option.noConfusion h0
    · exact ⟨k, d, by simpa using hd, hcid, hbody⟩
  · intro st p b hne
    unfold OcrRpcClient.on_response
    exact if_neg (fun hc => hne hc.symm)

/-- C1 witness: on a batch delivering one foreign and one matching reply,
the call returns the matching body, and that body indeed came from a
delivery with the generated correlation id. -/
theorem call_returns_only_matching_correlation_witness :
    (∃ k, ∃ d ∈ sampleEvents k,
        d.props.correlation_id = some (uuid4 0) ∧ d.body = Json.str "ocr text") ∧
    ∀ (st : OcrRpcClient) (p : BasicProperties) (b : Json),
      p.correlation_id ≠ some st.corr_id → OcrRpcClient.on_response st p b = st :=
  call_returns_only_matching_correlation sampleClient sampleEvents 2 (Json.str "img")
    sampleFinal (Json.str "ocr text") rfl

/-- C2 (code defect): when no delivery matching the generated correlation
id ever arrives, the wait loop of `call` has not returned after any number
of loop iterations: there is no timeout path and no `TimedOut` value in
the source. -/
theorem call_unmatched_reply_never_returns
    (self : OcrRpcClient) (events : Nat → List Delivery) (image_data : Json)
    (hno : ∀ k, ∀ d ∈ events k,
      d.props.correlation_id ≠ some (uuid4 self.uuid_draws)) :
    ∀ fuel : Nat, (OcrRpcClient.call self events fuel image_data).2 = none := by
  intro fuel
  exact OcrRpcClient.wait_for_response_no_match events fuel 0 _ rfl hno

/-- C2 witness: with no reply at all, the call is still blocked after five
loop iterations. -/
theorem call_unmatched_reply_never_returns_witness :
    (OcrRpcClient.call sampleClient (fun _ => []) 5 (Json.str "img")).2 = none :=
  call_unmatched_reply_never_returns sampleClient (fun _ => []) (Json.str "img")
    (fun _ d hd => absurd hd (List.not_mem_nil d)) 5

/-- C5: a stub worker that echoes the request payload back as the reply,
copying the correlation id verbatim, makes `call P` return `P`. -/
theorem call_echo_roundtrip (self : OcrRpcClient) (P : Json) :
    ((OcrRpcClient.call self
        (fun t =>
          if t = 0 then [echo_reply (OcrRpcClient.request_message self P)] else [])
        2 P).2).map Prod.snd = some P := by
  simp [OcrRpcClient.call, OcrRpcClient.wait_for_response, OcrRpcClient.process_batch,
    OcrRpcClient.on_response, echo_reply, OcrRpcClient.request_message]

/-- C9: the request `call` publishes goes to the well-known queue
`ocr_service`, with body the JSON object holding the payload under the
single key `image_data`, reply-to the exclusive callback queue of the
client, and a correlation id freshly drawn for this call (distinct from
every id this client drew before); the value returned is the JSON decoding
of the body of a delivery carrying that correlation id. -/
theorem call_request_format_and_reply
    (self : OcrRpcClient) (events : Nat → List Delivery) (fuel : Nat)
    (image_data : Json) (final : OcrRpcClient) (reply : Json)
    (h : (OcrRpcClient.call self events fuel image_data).2 = some (final, reply)) :
    (OcrRpcClient.call self events fuel image_data).1 =
      { routing_key := "ocr_service"
        props :=
          { reply_to := some self.callback_queue
            correlation_id := some (uuid4 self.uuid_draws)
            delivery_mode := none }
        body := Json.obj [("image_data", image_data)] } ∧
    (∀ m < self.uuid_draws, uuid4 m ≠ uuid4 self.uuid_draws) ∧
    ∃ k, ∃ d ∈ events k,
      d.props.correlation_id = some (uuid4 self.uuid_draws) ∧ reply = d.body := by
  refine ⟨rfl, ?_, ?_⟩
  · intro m hm heq
    exact absurd (uuid4_injective heq) (Nat.ne_of_lt hm)
  · have h' : OcrRpcClient.wait_for_response events 0
        { self with
            response := none
            corr_id := uuid4 self.uuid_draws
            uuid_draws := self.uuid_draws + 1 } fuel = some (final, reply) := h
    rcases OcrRpcClient.wait_for_response_source events fuel 0 _ final reply h' with
      h0 | ⟨k, d, hd, hcid, hbody⟩
    · exact Option.noConfusion h0
    · exact ⟨k, d, by simpa using hd, hcid, hbody.symm⟩

/-- C9 witness: the concrete request published by `sampleClient` and the
returned reply body, on the `sampleEvents` stream. -/
theorem call_request_format_and_reply_witness :
    (OcrRpcClient.call sampleClient sampleEvents 2 (Json.str "img")).1 =
      { routing_key := "ocr_service"
        props :=
          { reply_to := some "amq.gen-cb"
            correlation_id := some (uuid4 0)
            delivery_mode := none }
        body := Json.obj [("image_data", Json.str "img")] } ∧
    (∀ m < (0 : Nat), uuid4 m ≠ uuid4 0) ∧
    ∃ k, ∃ d ∈ sampleEvents k,
      d.props.correlation_id = some (uuid4 0) ∧ Json.str "ocr text" = d.body :=
  call_request_format_and_reply sampleClient sampleEvents 2 (Json.str "img")
    sampleFinal (Json.str "ocr text") rfl

/-! ## Claim theorems for the connection retry loop -/

/-- If every attempt fails, the loop is still retrying after any number of
attempts, from any starting attempt index. -/
theorem connect_to_rabbitmq_all_fail (attempt : Nat → Option Nat) :
    ∀ fuel n, (∀ m, attempt m = none) →
      connect_to_rabbitmq attempt n fuel = none := by
  intro fuel
  induction fuel with
  | zero =>
    intro n _
    rfl
  | succ f ih =>
    intro n hall
    simp only [connect_to_rabbitmq, hall n]
    exact ih (n + 1) hall

/-- Soundness of the loop outcome: a returned connection came from a
successful attempt, and every earlier attempt (from the start index on)
failed — each such failure having slept the fixed delay. -/
theorem connect_to_rabbitmq_sound (attempt : Nat → Option Nat) :
    ∀ fuel n c k, connect_to_rabbitmq attempt n fuel = some (c, k) →
      n ≤ k ∧ attempt k = some c ∧ ∀ j, n ≤ j → j < k → attempt j = none := by
  intro fuel
  induction fuel with
  | zero =>
    intro n c k h
    exact absurd h (by simp [connect_to_rabbitmq])
  | succ f ih =>
    intro n c k h
    cases ha : attempt n with
    | some c0 =>
      have hs : some (c0, n) = some (c, k) := by
        rw [← h]
        simp [connect_to_rabbitmq, ha]
      have hc : c0 = c := congrArg Prod.fst (Option.some.inj hs)
      have hk : n = k := congrArg Prod.snd (Option.some.inj hs)
      refine ⟨hk.le, ?_, ?_⟩
      · rw [← hk, ha, hc]
      · intro j hnj hjk
        omega
    | none =>
      have h' : connect_to_rabbitmq attempt (n + 1) f = some (c, k) := by
        rw [← h]
        simp [connect_to_rabbitmq, ha]
      rcases ih (n + 1) c k h' with ⟨hle, hk, hfail⟩
      refine ⟨by omega, hk, ?_⟩
      intro j hnj hjk
      rcases Nat.eq_or_lt_of_le hnj with hj | hj
      · rw [← hj]
        exact ha
      · exact hfail j hj hjk

/-- Completeness of the loop: if the first success (from the start index)
is at attempt `k`, the loop returns that connection as soon as it may
observe at least `k + 1` attempts. -/
theorem connect_to_rabbitmq_complete (attempt : Nat → Option Nat) :
    ∀ fuel n c k, n ≤ k → k < n + fuel → attempt k = some c →
      (∀ j, n ≤ j → j < k → attempt j = none) →
      connect_to_rabbitmq attempt n fuel = some (c, k) := by
  intro fuel
  induction fuel with
  | zero =>
    intro n c k hnk hkf _ _
    omega
  | succ f ih =>
    intro n c k hnk hkf hk hfail
    rcases Nat.eq_or_lt_of_le hnk with hj | hj
    · simp only [connect_to_rabbitmq, ← hj] at hk ⊢
      rw [hk]
    · have hn : attempt n = none := hfail n le_rfl hj
      simp only [connect_to_rabbitmq, hn]
      exact ih (n + 1) c k hj (by omega) hk
        (fun j h1 h2 => hfail j (by omega) h2)

/-- C6: `connect_to_rabbitmq` returns a connection exactly when some
attempt succeeds.  While every attempt fails it neither terminates nor
returns an error (the loop outcome is still pending after any number of
attempts); on the first successful attempt `k` it returns that connection,
having slept the fixed delay once per failed attempt. -/
theorem connect_to_rabbitmq_retries_forever (attempt : Nat → Option Nat) :
    ((∀ m, attempt m = none) →
      ∀ fuel, connect_to_rabbitmq attempt 0 fuel = none) ∧
    (∀ fuel c k, connect_to_rabbitmq attempt 0 fuel = some (c, k) →
      attempt k = some c ∧ ∀ j < k, attempt j = none) ∧
    (∀ c k, attempt k = some c → (∀ j < k, attempt j = none) →
      ∀ fuel, k < fuel → connect_to_rabbitmq attempt 0 fuel = some (c, k)) := by
  refine ⟨?_, ?_, ?_⟩
  · intro hall fuel
    exact connect_to_rabbitmq_all_fail attempt fuel 0 hall
  · intro fuel c k h
    rcases connect_to_rabbitmq_sound attempt fuel 0 c k h with ⟨_, hk, hfail⟩
    exact ⟨hk, fun j hj => hfail j (Nat.zero_le j) hj⟩
  · intro c k hk hfail fuel hkf
    exact connect_to_rabbitmq_complete attempt fuel 0 c k (Nat.zero_le k)
      (by omega) hk (fun j _ hj => hfail j hj)

/-- C6 witness: an attempt sequence failing twice and succeeding on the
third attempt makes the loop return that connection after two retries. -/
theorem connect_to_rabbitmq_retries_forever_witness :
    connect_to_rabbitmq (fun n => if n = 2 then some 7 else none) 0 5 = some (7, 2) :=
  (connect_to_rabbitmq_retries_forever (fun n => if n = 2 then some 7 else none)).2.2
    7 2 rfl (by decide) 5 (by decide)

/-! ## Run-shape lemmas for `send_otp` -/

/-- When the queue exists and the publish succeeds, the run publishes the
one OTP notification, logs success, and returns normally; the queue
topology is untouched (the delete-and-redeclare branch is unreachable). -/
theorem send_otp_success_run (email otp : String) (ch : Channel) (br : Broker)
    (hq : queue_exists br "email_notification" = true) :
    send_otp email otp ch br true =
      { broker :=
          { queues := br.queues
            published := br.published ++ [otp_notification email otp] }
        log := ["Sent OTP email notification"]
        outcome := CallerOutcome.returned } := by
  simp [send_otp, queue_declare_passive, hq]

/-- When the queue does not exist, the passive declare raises, the
exception is caught, and the run changes nothing: no queue is declared, no
message is published, and the function returns normally. -/
theorem send_otp_queue_missing_run (email otp : String) (ch : Channel)
    (br : Broker) (publish_ok : Bool)
    (hq : queue_exists br "email_notification" = false) :
    send_otp email otp ch br publish_ok =
      { broker := br
        log := ["Failed to publish message: NOT_FOUND - no queue email_notification"]
        outcome := CallerOutcome.returned } := by
  simp [send_otp, queue_declare_passive, hq]

/-- When the queue exists but the publish fails, the exception is caught:
nothing is published, the failure is only logged, and the function returns
normally. -/
theorem send_otp_publish_fail_run (email otp : String) (ch : Channel)
    (br : Broker) (hq : queue_exists br "email_notification" = true) :
    send_otp email otp ch br false =
      { broker := br
        log := ["Failed to publish message: ConnectionClosed"]
        outcome := CallerOutcome.returned } := by
  simp [send_otp, queue_declare_passive, hq]

/-! ## Claim theorems for `send_otp` -/

/-- C3 counterexample: with the queue present and the publish failing at
publish time, `send_otp` returns normally to its caller — no
BrokerUnavailable, no PublishFailed, no exception — while the message is
dropped (nothing reaches the broker journal) and the failure is only
printed. -/
theorem send_otp_publish_failure_unsignaled :
    (send_otp "a@b.com" "123456" 0
        { queues := [("email_notification", true)], published := [] } false).outcome =
      CallerOutcome.returned ∧
    (send_otp "a@b.com" "123456" 0
        { queues := [("email_notification", true)], published := [] } false).broker.published =
      [] ∧
    (send_otp "a@b.com" "123456" 0
        { queues := [("email_notification", true)], published := [] } false).log =
      ["Failed to publish message: ConnectionClosed"] :=
  ⟨rfl, rfl, rfl⟩

/-- C3 amended: on a publish-time failure `send_otp` catches the
exception, prints a failure line, publishes nothing, and returns normally
to its caller; no explicit error is surfaced. -/
theorem send_otp_publish_failure_only_logged (email otp : String)
    (ch : Channel) (br : Broker) :
    (send_otp email otp ch br false).outcome = CallerOutcome.returned ∧
    (send_otp email otp ch br false).broker.published = br.published ∧
    ∃ e, (send_otp email otp ch br false).log =
      ["Failed to publish message: " ++ e] := by
  cases hq : queue_exists br "email_notification" with
  | false =>
    rw [send_otp_queue_missing_run email otp ch br false hq]
    exact ⟨rfl, rfl, ⟨"NOT_FOUND - no queue email_notification", rfl⟩⟩
  | true =>
    rw [send_otp_publish_fail_run email otp ch br hq]
    exact ⟨rfl, rfl, ⟨"ConnectionClosed", rfl⟩⟩

/-- C4 (code defect): with `email_notification` already existing
non-durable, a `send_otp` run that publishes successfully leaves the queue
exactly as it was — non-durable.  The reconciliation step compares the
declared queue name against itself, so the delete-and-redeclare branch can
never run. -/
theorem send_otp_leaves_nondurable_queue :
    (send_otp "a@b.com" "123456" 0
        { queues := [("email_notification", false)], published := [] } true).log =
      ["Sent OTP email notification"] ∧
    (send_otp "a@b.com" "123456" 0
        { queues := [("email_notification", false)], published := [] } true).broker.queues =
      [("email_notification", false)] ∧
    queue_durable
      (send_otp "a@b.com" "123456" 0
          { queues := [("email_notification", false)], published := [] } true).broker
      "email_notification" = false :=
  ⟨rfl, rfl, rfl⟩

/-- C7: every message a `send_otp` run emits carries the persistence flag
and neither reply-to nor correlation-id metadata; at most one message is
emitted per run, and on the success path exactly the one OTP notification
is emitted. -/
theorem send_otp_one_persistent_message (email otp : String) (ch : Channel)
    (br : Broker) (publish_ok : Bool) :
    (∀ m ∈ sent_messages (send_otp email otp ch br publish_ok) br,
        m.props.delivery_mode = some PERSISTENT_DELIVERY_MODE ∧
        m.props.reply_to = none ∧ m.props.correlation_id = none) ∧
    (sent_messages (send_otp email otp ch br publish_ok) br).length ≤ 1 ∧
    (queue_exists br "email_notification" = true → publish_ok = true →
      sent_messages (send_otp email otp ch br publish_ok) br =
        [otp_notification email otp]) := by
  cases hq : queue_exists br "email_notification" with
  | false =>
    rw [send_otp_queue_missing_run email otp ch br publish_ok hq]
    refine ⟨?_, ?_, ?_⟩
    · intro m hm
      simp [sent_messages, List.drop_length] at hm
    · simp [sent_messages, List.drop_length]
    · intro hq' _
      cases hq'
  | true =>
    cases publish_ok with
    | false =>
      rw [send_otp_publish_fail_run email otp ch br hq]
      refine ⟨?_, ?_, ?_⟩
      · intro m hm
        simp [sent_messages, List.drop_length] at hm
      · simp [sent_messages, List.drop_length]
      · intro _ hp
        cases hp
    | true =>
      rw [send_otp_success_run email otp ch br hq]
      have hsent : sent_messages
          ({ broker :=
              { queues := br.queues
                published := br.published ++ [otp_notification email otp] }
             log := ["Sent OTP email notification"]
             outcome := CallerOutcome.returned } : SendOtpRun) br =
          [otp_notification email otp] := by
        simp [sent_messages, List.drop_left]
      rw [hsent]
      refine ⟨?_, by simp, fun _ _ => rfl⟩
      intro m hm
      rw [List.mem_singleton] at hm
      rw [hm]
      exact ⟨rfl, rfl, rfl⟩

/-- C7 witness: on a broker with the queue present and a succeeding
publish, exactly the one persistent OTP notification is emitted. -/
theorem send_otp_one_persistent_message_witness :
    sent_messages
      (send_otp "a@b.com" "123456" 0
        { queues := [("email_notification", true)], published := [] } true)
      { queues := [("email_notification", true)], published := [] } =
      [otp_notification "a@b.com" "123456"] :=
  (send_otp_one_persistent_message "a@b.com" "123456" 0
    { queues := [("email_notification", true)], published := [] } true).2.2 rfl rfl

/-- C8: on the success path the one message published to the fixed queue
`email_notification` has a JSON object body with exactly the keys email,
subject, other and body, where the email field equals the input email and
the body text contains the input otp. -/
theorem send_otp_notification_body_shape (email otp : String) (ch : Channel)
    (br : Broker) (hq : queue_exists br "email_notification" = true) :
    ∃ m, sent_messages (send_otp email otp ch br true) br = [m] ∧
      m.routing_key = "email_notification" ∧
      m.body = Json.obj
        [("email", Json.str email),
         ("subject", Json.str "Account Verification OTP Notification"),
         ("other", Json.str "null"),
         ("body", Json.str (otp_body otp))] ∧
      ∃ pre post, otp_body otp = pre ++ (otp ++ post) := by
  refine ⟨otp_notification email otp, ?_, rfl, rfl,
    "Your OTP for account verification is: ",
    " \n Please enter this OTP on the verification page to complete your account setup. \n If you did not request this OTP, please ignore this message.\n Thank you ",
    rfl⟩
  rw [send_otp_success_run email otp ch br hq]
  simp [sent_messages, List.drop_left]

/-- C8 witness: the concrete body published for a concrete email and otp. -/
theorem send_otp_notification_body_shape_witness :
    ∃ m, sent_messages
        (send_otp "a@b.com" "123456" 0
          { queues := [("email_notification", true)], published := [] } true)
        { queues := [("email_notification", true)], published := [] } = [m] ∧
      m.routing_key = "email_notification" ∧
      m.body = Json.obj
        [("email", Json.str "a@b.com"),
         ("subject", Json.str "Account Verification OTP Notification"),
         ("other", Json.str "null"),
         ("body", Json.str (otp_body "123456"))] ∧
      ∃ pre post, otp_body "123456" = pre ++ ("123456" ++ post) :=
  send_otp_notification_body_shape "a@b.com" "123456" 0
    { queues := [("email_notification", true)], published := [] } rfl

/-- C10: the observable behaviour of `send_otp` is independent of its
`channel` argument: the parameter is immediately shadowed by a channel
obtained from a freshly created connection, so two runs differing only in
that argument are indistinguishable. -/
theorem send_otp_independent_of_channel_argument (email otp : String)
    (ch1 ch2 : Channel) (br : Broker) (publish_ok : Bool) :
    send_otp email otp ch1 br publish_ok = send_otp email otp ch2 br publish_ok :=
  rfl
